import Mathlib

set_option maxRecDepth 8000

/-!
# Verification of the reflector-contract price/yield engine

Shallow embedding of the yield-adjusted price oracle contract
(`src/extensions/env_extensions.rs` and friends).  Rust `i128` values are
modelled as `Int` together with explicit 128-bit range checks; Rust `u64`
values as `Nat` with explicit bounds where wrap-around could matter.
Rust's `/` on `i128` truncates toward zero, which is `Int.tdiv`; the
specification's `floor` division is `Int.fdiv`.
Fallible Rust code (`panic_with_error`) is modelled with `Except Error`.
-/

namespace Reflector

/-- The contract's error codes, from `src/types/error.rs`. -/
inductive Error where
  | AlreadyInitialized
  | Unauthorized
  | AssetMissing
  | AssetAlreadyExists
  | InvalidConfigVersion
  | InvalidTimestamp
  | InvalidUpdateLength
  | AssetLimitExceeded
  | FxLimitExceeded
  | FxAlreadyExists
  | StaleFxPrice
  | FxArrayLengthMismatch
  | InvalidYieldRate
  | InvalidFxPrice
  | FxOracleUnavailable
  | IntegerOverflow
  | FxOracleTimestampDrift
  | YieldRateDecreased
  | YieldRateDeviationExceeded
  deriving DecidableEq, Repr

instance {ε α : Type} [DecidableEq ε] [DecidableEq α] : DecidableEq (Except ε α) := fun a b =>
  match a, b with
  | Except.ok x, Except.ok y =>
    match decEq x y with
    | isTrue h => isTrue (by rw [h])
    | isFalse h => isFalse (fun he => h (Except.ok.inj he))
  | Except.error x, Except.error y =>
    match decEq x y with
    | isTrue h => isTrue (by rw [h])
    | isFalse h => isFalse (fun he => h (Except.error.inj he))
  | Except.ok _, Except.error _ => isFalse (fun he => Except.noConfusion he)
  | Except.error _, Except.ok _ => isFalse (fun he => Except.noConfusion he)

/-! ## 128-bit checked arithmetic (Rust `i128` checked ops) -/

/-- Smallest `i128` value. -/
def i128Min : Int := -(2 ^ 127)

/-- Largest `i128` value. -/
def i128Max : Int := 2 ^ 127 - 1

/-- Largest `u64` value. -/
def u64Max : Nat := 2 ^ 64 - 1

/-- An integer fits the `i128` range. -/
def i128Ok (x : Int) : Prop := i128Min ≤ x ∧ x ≤ i128Max

instance (x : Int) : Decidable (i128Ok x) := by unfold i128Ok; infer_instance

/-- Rust `i128::checked_sub`. -/
def checked_sub (a b : Int) : Option Int :=
  if i128Ok (a - b) then some (a - b) else none

/-- Rust `i128::checked_mul`. -/
def checked_mul (a b : Int) : Option Int :=
  if i128Ok (a * b) then some (a * b) else none

/-- Rust `i128::checked_div`: `None` on division by zero or `i128::MIN / -1`;
otherwise truncated (toward-zero) division, i.e. `Int.tdiv`. -/
def checked_div (a b : Int) : Option Int :=
  if b = 0 then none
  else if a = i128Min ∧ b = -1 then none
  else some (Int.tdiv a b)

/-- Rust `10i128.checked_pow(d)`: `None` exactly when `10^d` exceeds `i128::MAX`. -/
def checked_pow10 (d : Nat) : Option Int :=
  if (10 : Int) ^ d ≤ i128Max then some ((10 : Int) ^ d) else none

/-- Rust `u64::checked_mul`. -/
def checked_mul_u64 (a b : Nat) : Option Nat :=
  if a * b ≤ u64Max then some (a * b) else none

/-- Rust `u64::abs_diff`. -/
def abs_diff (a b : Nat) : Nat := if b ≤ a then a - b else b - a

/-! ## Yield Rate Validator (`set_price`, env_extensions.rs lines 140-205) -/

/-- The monotonic check of `set_price` (lines 162-181): when the new rate is
below the previous one, the truncated percentage drop must be at most 1. -/
def monotonic_check (prev_rate yield_rate : Int) : Except Error Unit :=
  if yield_rate < prev_rate then
    match checked_sub prev_rate yield_rate with
    | none => Except.error Error.IntegerOverflow
    | some drop =>
      match checked_mul drop 100 with
      | none => Except.error Error.IntegerOverflow
      | some drop_times_100 =>
        match checked_div drop_times_100 prev_rate with
        | none => Except.error Error.IntegerOverflow
        | some percentage_drop =>
          if percentage_drop > 1 then Except.error Error.YieldRateDecreased
          else Except.ok ()
  else Except.ok ()

/-- The deviation check of `set_price` (lines 183-204): the truncated signed
percentage change must not exceed the configured maximum deviation. -/
def deviation_check (prev_rate yield_rate : Int) (max_deviation : Nat) : Except Error Unit :=
  match checked_sub yield_rate prev_rate with
  | none => Except.error Error.IntegerOverflow
  | some change =>
    match checked_mul change 100 with
    | none => Except.error Error.IntegerOverflow
    | some change_times_100 =>
      match checked_div change_times_100 prev_rate with
      | none => Except.error Error.IntegerOverflow
      | some percentage_change =>
        if percentage_change > (max_deviation : Int) then
          Except.error Error.YieldRateDeviationExceeded
        else Except.ok ()

/-- The yield-rate validation of `set_price` (lines 140-205): the minimum-rate
floor check, then — when a usable previous rate exists — the monotonic check
followed by the deviation check. -/
def validate_yield_rate (decimals max_deviation : Nat) (previous_yield_rate : Option Int)
    (yield_rate : Int) : Except Error Unit :=
  match checked_pow10 decimals with
  | none => Except.error Error.IntegerOverflow
  | some min_yield_rate =>
    if yield_rate < min_yield_rate then Except.error Error.InvalidYieldRate
    else
      match previous_yield_rate with
      | none => Except.ok ()
      | some prev_rate =>
        match monotonic_check prev_rate yield_rate with
        | Except.error e => Except.error e
        | Except.ok _ =>
          deviation_check prev_rate yield_rate max_deviation

example : validate_yield_rate 2 10 (some 100) 120
    = Except.error Error.YieldRateDeviationExceeded := by decide

example : validate_yield_rate 2 10 (some 100) 110 = Except.ok () := by decide

example : validate_yield_rate 2 10 (some 1000) 975 = Except.error Error.YieldRateDecreased := by
  decide

example : validate_yield_rate 2 10 (some 1000) 991 = Except.ok () := by decide

example : validate_yield_rate 2 10 none 99 = Except.error Error.InvalidYieldRate := by decide

/-! ## Configuration, assets and external oracle data -/

/-- An asset identity, from `src/types/asset.rs` as described by the trait
surface: either a native-chain address or a symbolic ticker. -/
inductive Asset where
  | Stellar (address : Nat)
  | Other (symbol : String)
  deriving DecidableEq, Repr

/-- A price record returned by the external oracle's `lastprice`:
`{price: i128, timestamp: u64 (seconds)}`. -/
structure PriceData where
  price : Int
  timestamp : Nat
  deriving DecidableEq, Repr

/-- The instance-storage configuration read by the core
(`ConfigData` in `src/types/config_data.rs` plus the `last_timestamp` marker). -/
structure ConfigState where
  decimals : Nat
  resolution : Nat
  base_asset : Asset
  fx_oracle_address : Option Nat
  max_yield_deviation : Nat
  last_timestamp : Nat
  deriving DecidableEq, Repr

/-! ## Temporal Continuity Resolver (`obtain_record_timestamp`, lines 231-243) -/

/-- `obtain_record_timestamp`: returns the stored marker unless it is zero, in
the future relative to the ledger time (seconds, converted to ms), or at least
two resolution windows in the past. -/
def obtain_record_timestamp (last_timestamp ledger_secs resolution : Nat) : Nat :=
  let ledger_timestamp := ledger_secs * 1000
  if last_timestamp = 0 ∨ last_timestamp > ledger_timestamp
      ∨ ledger_timestamp - last_timestamp ≥ resolution * 2 then 0
  else last_timestamp

example : obtain_record_timestamp 600000 900 300000 = 600000 := by decide
example : obtain_record_timestamp 600000 1200 300000 = 0 := by decide
example : obtain_record_timestamp 0 900 300000 = 0 := by decide
example : obtain_record_timestamp 600000 100 300000 = 0 := by decide

/-! ## FX Price Resolver (`get_reflector_fx_price`, lines 382-424) -/

/-- The timestamp-drift check of `get_reflector_fx_price` (lines 400-416):
performed only when the contract's next timestamp is positive; the oracle's
seconds timestamp is converted to ms with a checked multiply and its absolute
distance from the target must not exceed two resolution windows. -/
def drift_check (resolution oracle_ts_secs contract_next_timestamp : Nat) : Except Error Unit :=
  if 0 < contract_next_timestamp then
    match checked_mul_u64 oracle_ts_secs 1000 with
    | none => Except.error Error.IntegerOverflow
    | some oracle_timestamp_ms =>
      if abs_diff oracle_timestamp_ms contract_next_timestamp > 2 * resolution then
        Except.error Error.FxOracleTimestampDrift
      else Except.ok ()
  else Except.ok ()

/-- The tail of `get_reflector_fx_price` once the oracle has returned a price
record: the drift check (lines 400-416) then the positivity check
(lines 418-423). -/
def fx_record_path (resolution : Nat) (price_data : PriceData)
    (contract_next_timestamp : Nat) : Except Error Int :=
  match drift_check resolution price_data.timestamp contract_next_timestamp with
  | Except.error e => Except.error e
  | Except.ok _ =>
    if price_data.price ≤ 0 then Except.error Error.InvalidFxPrice
    else Except.ok price_data.price

/-- The oracle branch of `get_reflector_fx_price`: the staleness check on the
`lastprice` result (lines 393-398), then the record checks. -/
def fx_oracle_path (resolution : Nat) (oracle_lastprice : Option PriceData)
    (contract_next_timestamp : Nat) : Except Error Int :=
  match oracle_lastprice with
  | none => Except.error Error.StaleFxPrice
  | some price_data => fx_record_path resolution price_data contract_next_timestamp

/-- `get_reflector_fx_price`: the hardcoded base-currency constant for the
literal symbol "USD", otherwise a cross-contract `lastprice` lookup (modelled
by the `oracle_lastprice` argument) guarded by availability, staleness, drift
and positivity checks. -/
def get_reflector_fx_price (cfg : ConfigState) (oracle_lastprice : Option PriceData)
    (fx : String) (contract_next_timestamp : Nat) : Except Error Int :=
  if fx = "USD" then
    match checked_pow10 cfg.decimals with
    | some v => Except.ok v
    | none => Except.error Error.IntegerOverflow
  else
    match cfg.fx_oracle_address with
    | none => Except.error Error.FxOracleUnavailable
    | some _ => fx_oracle_path cfg.resolution oracle_lastprice contract_next_timestamp

/-! ## Price Compositor (`get_price_with_yield`, lines 364-380) -/

/-- `get_price_with_yield`: `floor(fx_price * yield_rate / 10^decimals)` with
checked multiply, checked power and checked (truncating) divide. -/
def get_price_with_yield (yield_rate fx_price : Int) (decimals : Nat) : Except Error Int :=
  match checked_mul fx_price yield_rate with
  | none => Except.error Error.IntegerOverflow
  | some intermediate =>
    match checked_pow10 decimals with
    | none => Except.error Error.IntegerOverflow
    | some divisor =>
      match checked_div intermediate divisor with
      | none => Except.error Error.IntegerOverflow
      | some v => Except.ok v

/-! ## Record keys and the temporary record store -/

/-- Modelled from the spec: the Record Key Codec (`u128_helper.rs`, not under
`src/`) packs the 64-bit timestamp into the high bits and the 8-bit asset slot
into the low 8 bits of a 128-bit key. -/
def encode_record_key (timestamp asset : Nat) : Nat := timestamp * 2 ^ 64 + asset

/-- The yield-record key: the price-record key with bit 8 forced to 1
(env_extensions.rs lines 332-350). -/
def yield_record_key (timestamp asset : Nat) : Nat := encode_record_key timestamp asset ||| 2 ^ 8

/-- The temporary (TTL-bearing) record store, keyed by 128-bit record keys.
TTL expiry is modelled by absence. -/
structure Storage where
  temp : Nat → Option Int

/-- A single write to the temporary store. -/
def store (st : Storage) (key : Nat) (v : Int) : Storage :=
  ⟨fun k => if k = key then some v else st.temp k⟩

/-- `get_price` (lines 132-137): a direct lookup of the price record;
absence is reported as `none`, never as an error. -/
def get_price_model (temp : Nat → Option Int) (asset timestamp : Nat) : Option Int :=
  temp (encode_record_key timestamp asset)

/-! ## `set_price` (lines 139-222) -/

/-- The previous accepted yield rate used by `set_price` (lines 150-157): the
yield record at the reference timestamp, when the Temporal Continuity Resolver
yields a usable one. -/
def previous_yield_rate_of (cfg : ConfigState) (st : Storage) (asset ledger_secs : Nat) :
    Option Int :=
  let last_timestamp := obtain_record_timestamp cfg.last_timestamp ledger_secs cfg.resolution
  if 0 < last_timestamp then st.temp (yield_record_key last_timestamp asset) else none

/-- The price composition and price-record write of `set_price`
(lines 213-221), applied to the storage `st1` that already holds the new
yield record. -/
def compose_and_store (cfg : ConfigState) (st1 : Storage) (yield_rate fx_price : Int)
    (timestamp asset : Nat) : Except Error Storage :=
  match get_price_with_yield yield_rate fx_price cfg.decimals with
  | Except.error e => Except.error e
  | Except.ok price => Except.ok (store st1 (encode_record_key timestamp asset) price)

/-- The tail of `set_price` after yield validation and the yield-record write
(lines 210-221): FX resolution, then composition and the price write. -/
def set_price_after_validation (cfg : ConfigState) (oracle_lastprice : Option PriceData)
    (st1 : Storage) (asset : Nat) (fx : String) (yield_rate : Int) (timestamp : Nat) :
    Except Error Storage :=
  match get_reflector_fx_price cfg oracle_lastprice fx timestamp with
  | Except.error e => Except.error e
  | Except.ok fx_price => compose_and_store cfg st1 yield_rate fx_price timestamp asset

/-- `set_price`: yield-rate validation, then the yield-record write, the FX
resolution, the price composition and the price-record write.  An error at any
point aborts the invocation (Soroban `panic_with_error` traps). -/
def set_price_model (cfg : ConfigState) (oracle_lastprice : Option PriceData)
    (ledger_secs : Nat) (st : Storage) (asset : Nat) (fx : String) (yield_rate : Int)
    (timestamp : Nat) : Except Error Storage :=
  match validate_yield_rate cfg.decimals cfg.max_yield_deviation
      (previous_yield_rate_of cfg st asset ledger_secs) yield_rate with
  | Except.error e => Except.error e
  | Except.ok _ =>
    set_price_after_validation cfg oracle_lastprice
      (store st (yield_record_key timestamp asset) yield_rate) asset fx yield_rate timestamp

/-- Soroban host semantics: a contract invocation is transactional, so a trap
(`panic_with_error`) reverts every storage write of the invocation; only a
successful call commits its final storage. -/
def commit_transaction (result : Except Error Storage) (initial : Storage) : Storage :=
  match result with
  | Except.ok st => st
  | Except.error _ => initial

/-- The price record left at `(timestamp, asset)` by a `set_price` call, or
`none` when the call aborted. -/
def stored_price (cfg : ConfigState) (oracle_lastprice : Option PriceData)
    (ledger_secs : Nat) (st : Storage) (asset : Nat) (fx : String) (yield_rate : Int)
    (timestamp : Nat) : Option Int :=
  match set_price_model cfg oracle_lastprice ledger_secs st asset fx yield_rate timestamp with
  | Except.ok st2 => st2.temp (encode_record_key timestamp asset)
  | Except.error _ => none

/-! ## Temporal Query Engine: TWAP (modelled from the spec) -/

/-- Modelled from the spec: collecting the records of the `n` TWAP periods
(the Temporal Query Engine's entry points live in `lib.rs`, which is not under
`src/`); a missing period aborts the call, per section 4.7 of the design and
the repository's `x_twap_with_gap_test`. -/
def collect_periods : List (Option Int) → Except Unit (List Int)
  | [] => Except.ok []
  | none :: _ => Except.error ()
  | some x :: rest =>
    match collect_periods rest with
    | Except.ok r => Except.ok (x :: r)
    | Except.error e => Except.error e

/-- Modelled from the spec: TWAP over the records of `n` consecutive periods —
"requires a price at every one of the n periods; if any period is missing, the
operation fails (no partial averages)"; otherwise the floored arithmetic mean. -/
def twap (prices : List (Option Int)) : Except Unit Int :=
  match collect_periods prices with
  | Except.error e => Except.error e
  | Except.ok vals => Except.ok (Int.tdiv vals.sum vals.length)

example : twap [some 2, some 4] = Except.ok 3 := by decide
example : twap [some 2, none] = Except.error () := by decide

/-- Modelled from the spec: the Fixed-Point Arithmetic Primitive of section
4.2 (`lib.rs` is not under `src/`): `floor(numerator * 10^decimals /
denominator)` with checked multiplication, failing (aborting the call) when
the scale factor overflows, the multiplication overflows, the denominator is
non-positive or the numerator is negative. -/
def scaled_floor_div (numerator denominator : Int) (decimals : Nat) : Except Unit Int :=
  if (10 : Int) ^ decimals ≤ i128Max then
    if 0 < denominator then
      if 0 ≤ numerator then
        if i128Ok (numerator * (10 : Int) ^ decimals) then
          Except.ok (Int.fdiv (numerator * (10 : Int) ^ decimals) denominator)
        else Except.error ()
      else Except.error ()
    else Except.error ()
  else Except.error ()

/-- Modelled from the spec: the last-price query of section 4.7 (`lib.rs` is
not under `src/`): the reference timestamp comes from the Temporal Continuity
Resolver, and an unusable marker or an absent/expired record is reported as
`none`, never as an error. -/
def last_price_model (cfg : ConfigState) (temp : Nat → Option Int)
    (asset ledger_secs : Nat) : Option Int :=
  if 0 < obtain_record_timestamp cfg.last_timestamp ledger_secs cfg.resolution then
    get_price_model temp asset
      (obtain_record_timestamp cfg.last_timestamp ledger_secs cfg.resolution)
  else none

/-- Modelled from the spec: the cross-rate query of section 4.7 (`lib.rs` is
not under `src/`): "no data" if either leg is missing — the missing-leg
short-circuit happens before the fallible fixed-point primitive — otherwise
`scaled_floor_div(price_A, price_B, decimals)`. -/
def x_price_model (temp : Nat → Option Int) (asset_a asset_b timestamp decimals : Nat) :
    Except Unit (Option Int) :=
  match get_price_model temp asset_a timestamp, get_price_model temp asset_b timestamp with
  | some price_a, some price_b =>
    match scaled_floor_div price_a price_b decimals with
    | Except.error e => Except.error e
    | Except.ok v => Except.ok (some v)
  | _, _ => Except.ok none

/-- Modelled from the spec: the cross-last-price query of section 4.7
(`lib.rs` is not under `src/`): the cross rate at the reference timestamp of
the Temporal Continuity Resolver, with an unusable marker reported as
`none`. -/
def x_last_price_model (cfg : ConfigState) (temp : Nat → Option Int)
    (asset_a asset_b ledger_secs : Nat) : Except Unit (Option Int) :=
  if 0 < obtain_record_timestamp cfg.last_timestamp ledger_secs cfg.resolution then
    x_price_model temp asset_a asset_b
      (obtain_record_timestamp cfg.last_timestamp ledger_secs cfg.resolution) cfg.decimals
  else Except.ok none

example : x_price_model (fun _ => none) 0 1 600000 14 = Except.ok none := by decide

/-! ## Arithmetic helper lemmas -/

theorem one_le_pow10 (d : Nat) : (1 : Int) ≤ 10 ^ d := by
  have h : (0 : Int) < 10 ^ d := pow_pos (by norm_num) d
  omega

theorem fdiv_neg_of_neg_of_pos {a b : Int} (ha : a < 0) (hb : 0 < b) : Int.fdiv a b < 0 := by
  rw [Int.fdiv_eq_ediv _ (le_of_lt hb)]
  exact Int.ediv_neg' ha hb

theorem tdiv_nonpos_of_nonpos_of_nonneg {a b : Int} (ha : a ≤ 0) (hb : 0 ≤ b) :
    Int.tdiv a b ≤ 0 := by
  have h : 0 ≤ Int.tdiv (-a) b := Int.tdiv_nonneg (by omega) hb
  rw [Int.neg_tdiv] at h
  omega

theorem tdiv_eq_fdiv_of_nonneg {a b : Int} (ha : 0 ≤ a) (hb : 0 ≤ b) :
    Int.tdiv a b = Int.fdiv a b := by
  rw [Int.tdiv_eq_ediv ha hb, Int.fdiv_eq_ediv _ hb]

/-! ## Reduction lemmas for the validator -/

theorem monotonic_check_of_ge {prev_rate yield_rate : Int} (h : ¬ yield_rate < prev_rate) :
    monotonic_check prev_rate yield_rate = Except.ok () := by
  unfold monotonic_check
  rw [if_neg h]

theorem monotonic_check_of_lt {prev_rate yield_rate : Int} (hp : 0 < prev_rate)
    (h3 : i128Ok (prev_rate - yield_rate)) (h4 : i128Ok ((prev_rate - yield_rate) * 100))
    (h : yield_rate < prev_rate) :
    monotonic_check prev_rate yield_rate =
      if 1 < Int.tdiv ((prev_rate - yield_rate) * 100) prev_rate then
        Except.error Error.YieldRateDecreased
      else Except.ok () := by
  have hne : prev_rate ≠ -1 := by omega
  unfold monotonic_check checked_sub checked_mul checked_div
  rw [if_pos h]
  simp only [h3, h4, if_true, hp.ne', hne, and_false, if_false, gt_iff_lt, ite_false]

theorem deviation_check_eq {prev_rate yield_rate : Int} {max_deviation : Nat} (hp : 0 < prev_rate)
    (h1 : i128Ok (yield_rate - prev_rate)) (h2 : i128Ok ((yield_rate - prev_rate) * 100)) :
    deviation_check prev_rate yield_rate max_deviation =
      if (max_deviation : Int) < Int.tdiv ((yield_rate - prev_rate) * 100) prev_rate then
        Except.error Error.YieldRateDeviationExceeded
      else Except.ok () := by
  have hne : prev_rate ≠ -1 := by omega
  unfold deviation_check checked_sub checked_mul checked_div
  simp only [h1, h2, if_true, hp.ne', hne, and_false, if_false, gt_iff_lt, ite_false]

theorem validate_of_lt_min {decimals max_deviation : Nat} {yield_rate : Int}
    (prev : Option Int) (hpow : (10 : Int) ^ decimals ≤ i128Max)
    (hlt : yield_rate < (10 : Int) ^ decimals) :
    validate_yield_rate decimals max_deviation prev yield_rate
      = Except.error Error.InvalidYieldRate := by
  unfold validate_yield_rate checked_pow10
  rw [if_pos hpow]
  simp only [if_pos hlt]

theorem validate_some_eq {decimals max_deviation : Nat} {prev yield_rate : Int}
    (hpow : (10 : Int) ^ decimals ≤ i128Max) (hge : (10 : Int) ^ decimals ≤ yield_rate) :
    validate_yield_rate decimals max_deviation (some prev) yield_rate =
      match monotonic_check prev yield_rate with
      | Except.error e => Except.error e
      | Except.ok _ => deviation_check prev yield_rate max_deviation := by
  unfold validate_yield_rate checked_pow10
  rw [if_pos hpow]
  simp only [if_neg (not_lt.mpr hge)]

theorem validate_none_eq {decimals max_deviation : Nat} {yield_rate : Int}
    (hpow : (10 : Int) ^ decimals ≤ i128Max) (hge : (10 : Int) ^ decimals ≤ yield_rate) :
    validate_yield_rate decimals max_deviation none yield_rate = Except.ok () := by
  unfold validate_yield_rate checked_pow10
  rw [if_pos hpow]
  simp only [if_neg (not_lt.mpr hge)]

theorem validate_some_of_mono_error {decimals max_deviation : Nat} {prev yield_rate : Int}
    {e : Error} (hpow : (10 : Int) ^ decimals ≤ i128Max)
    (hge : (10 : Int) ^ decimals ≤ yield_rate)
    (hm : monotonic_check prev yield_rate = Except.error e) :
    validate_yield_rate decimals max_deviation (some prev) yield_rate = Except.error e := by
  rw [validate_some_eq hpow hge, hm]

theorem validate_some_of_mono_ok {decimals max_deviation : Nat} {prev yield_rate : Int}
    (hpow : (10 : Int) ^ decimals ≤ i128Max) (hge : (10 : Int) ^ decimals ≤ yield_rate)
    (hm : monotonic_check prev yield_rate = Except.ok ()) :
    validate_yield_rate decimals max_deviation (some prev) yield_rate
      = deviation_check prev yield_rate max_deviation := by
  rw [validate_some_eq hpow hge, hm]

theorem error_ne_of_ne {α : Type} {e1 e2 : Error} (h : e1 ≠ e2) :
    (Except.error e1 : Except Error α) ≠ Except.error e2 :=
  fun hc => h (Except.error.inj hc)

theorem ok_ne_error {α : Type} {a : α} {e : Error} :
    (Except.ok a : Except Error α) ≠ Except.error e :=
  fun hc => Except.noConfusion hc

/-- C1: for a `set_price` update with a usable previous accepted yield rate
`prev`, the update fails with `YieldRateDeviationExceeded` if and only if the
signed floored percentage change `floor((yield_rate - prev) * 100 / prev)` is
strictly greater than the configured `max_yield_deviation_percent`, assuming
no intermediate 128-bit overflow. -/
theorem set_price_deviation_error_iff (decimals max_deviation : Nat) (prev yield_rate : Int)
    (hprev : (10 : Int) ^ decimals ≤ prev)
    (hpow : i128Ok ((10 : Int) ^ decimals))
    (h1 : i128Ok (yield_rate - prev)) (h2 : i128Ok ((yield_rate - prev) * 100))
    (h3 : i128Ok (prev - yield_rate)) (h4 : i128Ok ((prev - yield_rate) * 100)) :
    validate_yield_rate decimals max_deviation (some prev) yield_rate
        = Except.error Error.YieldRateDeviationExceeded
      ↔ (max_deviation : Int) < Int.fdiv ((yield_rate - prev) * 100) prev := by
  have hp1 : (1 : Int) ≤ 10 ^ decimals := one_le_pow10 decimals
  have hp0 : 0 < prev := by omega
  by_cases hlt : yield_rate < (10 : Int) ^ decimals
  · rw [validate_of_lt_min (some prev) hpow.2 hlt]
    have hneg : (yield_rate - prev) * 100 < 0 :=
      mul_neg_of_neg_of_pos (by omega) (by norm_num)
    have hf := fdiv_neg_of_neg_of_pos hneg hp0
    constructor
    · intro h
      exact absurd h (error_ne_of_ne (by decide))
    · intro h
      omega
  · push_neg at hlt
    by_cases hyp : yield_rate < prev
    · have hmono := monotonic_check_of_lt hp0 h3 h4 hyp
      have hneg : (yield_rate - prev) * 100 < 0 :=
        mul_neg_of_neg_of_pos (by omega) (by norm_num)
      have hf := fdiv_neg_of_neg_of_pos hneg hp0
      by_cases hpd : 1 < Int.tdiv ((prev - yield_rate) * 100) prev
      · rw [if_pos hpd] at hmono
        rw [validate_some_of_mono_error hpow.2 hlt hmono]
        constructor
        · intro h
          exact absurd h (error_ne_of_ne (by decide))
        · intro h
          omega
      · rw [if_neg hpd] at hmono
        rw [validate_some_of_mono_ok hpow.2 hlt hmono, deviation_check_eq hp0 h1 h2]
        have ht : Int.tdiv ((yield_rate - prev) * 100) prev ≤ 0 :=
          tdiv_nonpos_of_nonpos_of_nonneg (le_of_lt hneg) (le_of_lt hp0)
        rw [if_neg (by omega)]
        constructor
        · intro h
          exact absurd h ok_ne_error
        · intro h
          omega
    · have hmono := monotonic_check_of_ge hyp
      rw [validate_some_of_mono_ok hpow.2 hlt hmono, deviation_check_eq hp0 h1 h2,
        tdiv_eq_fdiv_of_nonneg (mul_nonneg (by omega) (by norm_num)) (le_of_lt hp0)]
      by_cases hdev : (max_deviation : Int) < Int.fdiv ((yield_rate - prev) * 100) prev
      · rw [if_pos hdev]
        exact iff_of_true rfl hdev
      · rw [if_neg hdev]
        exact iff_of_false ok_ne_error hdev

/-- C1 witness: with 2 decimals, a 10% bound, previous rate 1.00 and new rate
1.20 (a 20% rise), the update fails with `YieldRateDeviationExceeded`. -/
theorem set_price_deviation_error_iff_witness :
    validate_yield_rate 2 10 (some 100) 120 = Except.error Error.YieldRateDeviationExceeded :=
  (set_price_deviation_error_iff 2 10 100 120 (by decide) (by decide) (by decide) (by decide)
    (by decide) (by decide)).mpr (by decide)

theorem deviation_check_errors (prev_rate yield_rate : Int) (max_deviation : Nat) (e : Error)
    (h : deviation_check prev_rate yield_rate max_deviation = Except.error e) :
    e = Error.IntegerOverflow ∨ e = Error.YieldRateDeviationExceeded := by
  unfold deviation_check at h
  split at h
  · exact Or.inl (Except.error.inj h).symm
  · split at h
    · exact Or.inl (Except.error.inj h).symm
    · split at h
      · exact Or.inl (Except.error.inj h).symm
      · split at h
        · exact Or.inr (Except.error.inj h).symm
        · exact absurd h ok_ne_error

theorem deviation_check_ne_decreased (prev_rate yield_rate : Int) (max_deviation : Nat) :
    deviation_check prev_rate yield_rate max_deviation ≠ Except.error Error.YieldRateDecreased := by
  intro hc
  rcases deviation_check_errors _ _ _ _ hc with h | h <;> exact absurd h (by decide)

/-- C2 counterexample: with 1 decimal (minimum rate 10), previous rate 10 and
new rate 1, the floored drop is 90% > 1, yet the update does not fail with
`YieldRateDecreased` — it fails with `InvalidYieldRate` first, refuting the
claimed equivalence as stated. -/
theorem set_price_decreased_claim_cex :
    ¬ (validate_yield_rate 1 100 (some 10) 1 = Except.error Error.YieldRateDecreased
        ↔ 1 < Int.fdiv ((10 - 1) * 100) 10) := by
  decide

/-- C2 (amended): for a `set_price` update with a usable previous accepted
rate `prev` and new rate `yield_rate < prev` that passes the minimum-rate
floor (`yield_rate ≥ 10^decimals`), the update fails with `YieldRateDecreased`
if and only if `floor((prev - yield_rate) * 100 / prev) > 1`, assuming no
intermediate 128-bit overflow. -/
theorem set_price_decreased_error_iff (decimals max_deviation : Nat) (prev yield_rate : Int)
    (hmin : (10 : Int) ^ decimals ≤ yield_rate)
    (_hprev : (10 : Int) ^ decimals ≤ prev)
    (hlt : yield_rate < prev)
    (hpow : i128Ok ((10 : Int) ^ decimals))
    (h3 : i128Ok (prev - yield_rate)) (h4 : i128Ok ((prev - yield_rate) * 100)) :
    validate_yield_rate decimals max_deviation (some prev) yield_rate
        = Except.error Error.YieldRateDecreased
      ↔ 1 < Int.fdiv ((prev - yield_rate) * 100) prev := by
  have hp1 : (1 : Int) ≤ 10 ^ decimals := one_le_pow10 decimals
  have hp0 : 0 < prev := by omega
  have hmono := monotonic_check_of_lt hp0 h3 h4 hlt
  rw [tdiv_eq_fdiv_of_nonneg (mul_nonneg (by omega) (by norm_num)) (le_of_lt hp0)] at hmono
  by_cases hpd : 1 < Int.fdiv ((prev - yield_rate) * 100) prev
  · rw [if_pos hpd] at hmono
    rw [validate_some_of_mono_error hpow.2 hmin hmono]
    exact iff_of_true rfl hpd
  · rw [if_neg hpd] at hmono
    rw [validate_some_of_mono_ok hpow.2 hmin hmono]
    exact iff_of_false (deviation_check_ne_decreased _ _ _) hpd

/-- C2 witness: with 1 decimal, previous rate 100.0 and new rate 97.5 (a
floored 2% drop), the update fails with `YieldRateDecreased`. -/
theorem set_price_decreased_error_iff_witness :
    validate_yield_rate 1 5 (some 1000) 975 = Except.error Error.YieldRateDecreased :=
  (set_price_decreased_error_iff 1 5 1000 975 (by decide) (by decide) (by decide) (by decide)
    (by decide) (by decide)).mpr (by decide)

/-- C3: with no usable previous yield rate (cold start), validation succeeds
if and only if `yield_rate ≥ 10^decimals` (for any configured deviation
bound); and any `yield_rate < 10^decimals` fails with `InvalidYieldRate`
regardless of history. -/
theorem cold_start_validation (decimals max_deviation : Nat) (yield_rate : Int)
    (hpow : i128Ok ((10 : Int) ^ decimals)) :
    (validate_yield_rate decimals max_deviation none yield_rate = Except.ok ()
        ↔ (10 : Int) ^ decimals ≤ yield_rate)
    ∧ ∀ prev : Option Int, yield_rate < (10 : Int) ^ decimals →
        validate_yield_rate decimals max_deviation prev yield_rate
          = Except.error Error.InvalidYieldRate := by
  constructor
  · by_cases hge : (10 : Int) ^ decimals ≤ yield_rate
    · exact iff_of_true (validate_none_eq hpow.2 hge) hge
    · push_neg at hge
      refine iff_of_false ?_ (by omega)
      rw [validate_of_lt_min none hpow.2 hge]
      exact fun hc => Except.noConfusion hc
  · intro prev hlt
    exact validate_of_lt_min prev hpow.2 hlt

/-- C3 witness: with 2 decimals and deviation bound 0, a first update at rate
1.00 is accepted. -/
theorem cold_start_validation_witness :
    validate_yield_rate 2 0 none 100 = Except.ok () :=
  (cold_start_validation 2 0 100 (by decide)).1.mpr (by decide)

/-- C4: `obtain_record_timestamp` returns the stored marker exactly when the
marker is non-zero, does not exceed the ledger time converted to
milliseconds, and lies strictly less than two resolution windows in the past;
in every other case it returns 0.  The hypothesis excludes 64-bit wrap-around
in the seconds-to-milliseconds conversion. -/
theorem obtain_record_timestamp_spec (last_timestamp ledger_secs resolution : Nat)
    (_hnw : ledger_secs * 1000 ≤ u64Max) :
    obtain_record_timestamp last_timestamp ledger_secs resolution =
      if last_timestamp ≠ 0 ∧ last_timestamp ≤ ledger_secs * 1000
          ∧ ledger_secs * 1000 - last_timestamp < 2 * resolution
      then last_timestamp else 0 := by
  unfold obtain_record_timestamp
  split
  · rw [if_neg (by omega)]
  · rw [if_pos (by omega)]

/-- C4 witness: a marker at 600000 ms, ledger time 900 s and resolution
300000 ms is within two windows, so it is returned. -/
theorem obtain_record_timestamp_spec_witness :
    obtain_record_timestamp 600000 900 300000 = 600000 := by
  rw [obtain_record_timestamp_spec 600000 900 300000 (by decide)]
  decide

/-! ## Reduction lemmas for the FX resolver -/

theorem gfx_not_usd {cfg : ConfigState} (oracle_lastprice : Option PriceData) {fx : String}
    (target : Nat) {addr : Nat} (hfx : fx ≠ "USD")
    (haddr : cfg.fx_oracle_address = some addr) :
    get_reflector_fx_price cfg oracle_lastprice fx target
      = fx_oracle_path cfg.resolution oracle_lastprice target := by
  unfold get_reflector_fx_price
  rw [if_neg hfx, haddr]

theorem gfx_no_addr {cfg : ConfigState} (oracle_lastprice : Option PriceData) {fx : String}
    (target : Nat) (hfx : fx ≠ "USD") (haddr : cfg.fx_oracle_address = none) :
    get_reflector_fx_price cfg oracle_lastprice fx target
      = Except.error Error.FxOracleUnavailable := by
  unfold get_reflector_fx_price
  rw [if_neg hfx, haddr]

theorem gfx_usd_ok {cfg : ConfigState} (oracle_lastprice : Option PriceData) (target : Nat)
    (hpow : (10 : Int) ^ cfg.decimals ≤ i128Max) :
    get_reflector_fx_price cfg oracle_lastprice "USD" target
      = Except.ok ((10 : Int) ^ cfg.decimals) := by
  unfold get_reflector_fx_price checked_pow10
  rw [if_pos rfl, if_pos hpow]

theorem fx_record_path_of_drift_error {resolution : Nat} {price_data : PriceData}
    {target : Nat} {e : Error}
    (h : drift_check resolution price_data.timestamp target = Except.error e) :
    fx_record_path resolution price_data target = Except.error e := by
  unfold fx_record_path
  rw [h]

theorem fx_record_path_of_drift_ok {resolution : Nat} {price_data : PriceData} {target : Nat}
    (h : drift_check resolution price_data.timestamp target = Except.ok ()) :
    fx_record_path resolution price_data target =
      if price_data.price ≤ 0 then Except.error Error.InvalidFxPrice
      else Except.ok price_data.price := by
  unfold fx_record_path
  rw [h]

theorem drift_check_of_pos {resolution oracle_ts_secs target : Nat} (ht : 0 < target)
    (hnw : oracle_ts_secs * 1000 ≤ u64Max) :
    drift_check resolution oracle_ts_secs target =
      if 2 * resolution < abs_diff (oracle_ts_secs * 1000) target then
        Except.error Error.FxOracleTimestampDrift
      else Except.ok () := by
  unfold drift_check checked_mul_u64
  rw [if_pos ht, if_pos hnw]

theorem drift_check_errors (resolution oracle_ts_secs target : Nat) (e : Error)
    (h : drift_check resolution oracle_ts_secs target = Except.error e) :
    e = Error.IntegerOverflow ∨ e = Error.FxOracleTimestampDrift := by
  unfold drift_check at h
  split at h
  · split at h
    · exact Or.inl (Except.error.inj h).symm
    · split at h
      · exact Or.inr (Except.error.inj h).symm
      · exact absurd h ok_ne_error
  · exact absurd h ok_ne_error

/-! ## C5 / C6: FX resolver drift and staleness -/

def cfgC5 : ConfigState :=
  { decimals := 14, resolution := 300000, base_asset := Asset.Other "USD",
    fx_oracle_address := some 7, max_yield_deviation := 10, last_timestamp := 0 }

/-- C5 counterexample: with a target timestamp of 0, the drift check is
skipped entirely — an oracle record a full 10^9 ms away from the target is
accepted, refuting the claimed equivalence as stated. -/
theorem fx_drift_claim_cex :
    ¬ (get_reflector_fx_price cfgC5 (some ⟨1, 1000000⟩) "EUR" 0
          = Except.error Error.FxOracleTimestampDrift
        ↔ 2 * cfgC5.resolution < abs_diff (1000000 * 1000) 0) := by
  decide

/-- C5 (amended): for a non-base FX symbol and a positive target timestamp,
when the oracle returns a record (and the ms conversion does not overflow),
the resolver fails with `FxOracleTimestampDrift` if and only if the absolute
difference between the oracle timestamp in ms and the target exceeds two
resolution windows; with a zero target the drift check is skipped. -/
theorem fx_drift_error_iff (cfg : ConfigState) (price_data : PriceData) (fx : String)
    (target : Nat) (addr : Nat)
    (hfx : fx ≠ "USD") (haddr : cfg.fx_oracle_address = some addr) (ht : 0 < target)
    (hnw : price_data.timestamp * 1000 ≤ u64Max) :
    get_reflector_fx_price cfg (some price_data) fx target
        = Except.error Error.FxOracleTimestampDrift
      ↔ 2 * cfg.resolution < abs_diff (price_data.timestamp * 1000) target := by
  rw [gfx_not_usd (some price_data) target hfx haddr]
  have hdc := @drift_check_of_pos cfg.resolution price_data.timestamp target ht hnw
  by_cases hgt : 2 * cfg.resolution < abs_diff (price_data.timestamp * 1000) target
  · rw [if_pos hgt] at hdc
    rw [show fx_oracle_path cfg.resolution (some price_data) target
        = fx_record_path cfg.resolution price_data target from rfl,
      fx_record_path_of_drift_error hdc]
    exact iff_of_true rfl hgt
  · rw [if_neg hgt] at hdc
    rw [show fx_oracle_path cfg.resolution (some price_data) target
        = fx_record_path cfg.resolution price_data target from rfl,
      fx_record_path_of_drift_ok hdc]
    refine iff_of_false ?_ hgt
    by_cases hp : price_data.price ≤ 0
    · rw [if_pos hp]
      exact error_ne_of_ne (by decide)
    · rw [if_neg hp]
      exact fun hc => Except.noConfusion hc

/-- C5 witness: an oracle record 1400000 ms away from a positive target with
600000 ms drift budget fails with `FxOracleTimestampDrift`. -/
theorem fx_drift_error_iff_witness :
    get_reflector_fx_price cfgC5 (some ⟨5, 2000⟩) "EUR" 600000
      = Except.error Error.FxOracleTimestampDrift :=
  (fx_drift_error_iff cfgC5 ⟨5, 2000⟩ "EUR" 600000 7 (by decide) rfl (by decide)
    (by decide)).mpr (by decide)

/-- C6 counterexample: an oracle record with a zero timestamp is not rejected
as stale — with a target within the drift budget and a positive price, the
record is accepted, refuting the claim that a zero oracle timestamp yields
`StaleFxPrice`. -/
theorem fx_stale_claim_cex :
    get_reflector_fx_price cfgC5 (some ⟨5, 0⟩) "EUR" 100 ≠ Except.error Error.StaleFxPrice
      ∧ get_reflector_fx_price cfgC5 (some ⟨5, 0⟩) "EUR" 100 = Except.ok 5 := by
  constructor
  · decide
  · decide

/-- C6 (amended): for a non-base FX symbol with an oracle configured, the
resolver fails with `StaleFxPrice` if and only if the oracle returns no price
record; a record with a zero timestamp is not treated as stale. -/
theorem fx_stale_error_iff (cfg : ConfigState) (oracle_lastprice : Option PriceData)
    (fx : String) (target : Nat) (addr : Nat)
    (hfx : fx ≠ "USD") (haddr : cfg.fx_oracle_address = some addr) :
    get_reflector_fx_price cfg oracle_lastprice fx target = Except.error Error.StaleFxPrice
      ↔ oracle_lastprice = none := by
  rw [gfx_not_usd oracle_lastprice target hfx haddr]
  cases oracle_lastprice with
  | none => exact iff_of_true rfl rfl
  | some price_data =>
    refine iff_of_false ?_ (by simp)
    rw [show fx_oracle_path cfg.resolution (some price_data) target
        = fx_record_path cfg.resolution price_data target from rfl]
    cases hdc : drift_check cfg.resolution price_data.timestamp target with
    | error e =>
      rw [fx_record_path_of_drift_error hdc]
      rcases drift_check_errors _ _ _ _ hdc with he | he <;>
        · rw [he]
          exact error_ne_of_ne (by decide)
    | ok u =>
      rw [fx_record_path_of_drift_ok hdc]
      by_cases hp : price_data.price ≤ 0
      · rw [if_pos hp]
        exact error_ne_of_ne (by decide)
      · rw [if_neg hp]
        exact fun hc => Except.noConfusion hc

/-- C6 witness: with no oracle record, the resolver fails with
`StaleFxPrice`. -/
theorem fx_stale_error_iff_witness :
    get_reflector_fx_price cfgC5 none "EUR" 600000 = Except.error Error.StaleFxPrice :=
  (fx_stale_error_iff cfgC5 none "EUR" 600000 7 (by decide) rfl).mpr rfl

/-! ## Reduction lemmas for `set_price` and the compositor -/

theorem store_temp_same (st : Storage) (key : Nat) (v : Int) :
    (store st key v).temp key = some v := by
  unfold store
  simp

theorem gpwy_ok (yield_rate fx_price : Int) (decimals : Nat)
    (h1 : i128Ok (fx_price * yield_rate)) (hpow : (10 : Int) ^ decimals ≤ i128Max) :
    get_price_with_yield yield_rate fx_price decimals
      = Except.ok (Int.tdiv (fx_price * yield_rate) ((10 : Int) ^ decimals)) := by
  have hp := one_le_pow10 decimals
  have hne : (10 : Int) ^ decimals ≠ 0 := by omega
  have hne1 : (10 : Int) ^ decimals ≠ -1 := by omega
  unfold get_price_with_yield checked_mul checked_pow10 checked_div
  simp only [h1, hpow, if_true, hne, hne1, and_false, if_false, ite_true, ite_false]

theorem set_price_of_validate_error {cfg : ConfigState} {oracle_lastprice : Option PriceData}
    {ledger_secs : Nat} {st : Storage} {asset : Nat} {fx : String} {yield_rate : Int}
    {timestamp : Nat} {e : Error}
    (hval : validate_yield_rate cfg.decimals cfg.max_yield_deviation
        (previous_yield_rate_of cfg st asset ledger_secs) yield_rate = Except.error e) :
    set_price_model cfg oracle_lastprice ledger_secs st asset fx yield_rate timestamp
      = Except.error e := by
  unfold set_price_model
  rw [hval]

theorem set_price_of_validate_ok {cfg : ConfigState} {oracle_lastprice : Option PriceData}
    {ledger_secs : Nat} {st : Storage} {asset : Nat} {fx : String} {yield_rate : Int}
    {timestamp : Nat}
    (hval : validate_yield_rate cfg.decimals cfg.max_yield_deviation
        (previous_yield_rate_of cfg st asset ledger_secs) yield_rate = Except.ok ()) :
    set_price_model cfg oracle_lastprice ledger_secs st asset fx yield_rate timestamp
      = set_price_after_validation cfg oracle_lastprice
          (store st (yield_record_key timestamp asset) yield_rate) asset fx yield_rate
          timestamp := by
  unfold set_price_model
  rw [hval]

theorem after_validation_of_fx_ok {cfg : ConfigState} {oracle_lastprice : Option PriceData}
    {st1 : Storage} {asset : Nat} {fx : String} {yield_rate fx_price : Int} {timestamp : Nat}
    (hfx : get_reflector_fx_price cfg oracle_lastprice fx timestamp = Except.ok fx_price) :
    set_price_after_validation cfg oracle_lastprice st1 asset fx yield_rate timestamp
      = compose_and_store cfg st1 yield_rate fx_price timestamp asset := by
  unfold set_price_after_validation
  rw [hfx]

theorem compose_and_store_of_ok {cfg : ConfigState} {st1 : Storage} {yield_rate fx_price : Int}
    {timestamp asset : Nat} {price : Int}
    (h : get_price_with_yield yield_rate fx_price cfg.decimals = Except.ok price) :
    compose_and_store cfg st1 yield_rate fx_price timestamp asset
      = Except.ok (store st1 (encode_record_key timestamp asset) price) := by
  unfold compose_and_store
  rw [h]

theorem validate_ok_pow_le {decimals max_deviation : Nat} {prev : Option Int} {yield_rate : Int}
    (hval : validate_yield_rate decimals max_deviation prev yield_rate = Except.ok ()) :
    (10 : Int) ^ decimals ≤ i128Max := by
  by_contra hc
  push_neg at hc
  unfold validate_yield_rate checked_pow10 at hval
  rw [if_neg (not_le.mpr hc)] at hval
  exact absurd hval (fun h => Except.noConfusion h)

/-- C7: a `set_price` update whose FX symbol is the hardcoded base currency
"USD" and whose yield rate passes validation stores a composited price exactly
equal to the yield rate, since the FX rate used is `10^decimals` and
`floor(10^decimals * r / 10^decimals) = r`, provided `10^decimals * r` stays
in the signed 128-bit range. -/
theorem usd_roundtrip (cfg : ConfigState) (oracle_lastprice : Option PriceData)
    (ledger_secs : Nat) (st : Storage) (asset : Nat) (yield_rate : Int) (timestamp : Nat)
    (hval : validate_yield_rate cfg.decimals cfg.max_yield_deviation
        (previous_yield_rate_of cfg st asset ledger_secs) yield_rate = Except.ok ())
    (hok : i128Ok ((10 : Int) ^ cfg.decimals * yield_rate)) :
    stored_price cfg oracle_lastprice ledger_secs st asset "USD" yield_rate timestamp
      = some yield_rate := by
  have hpow := validate_ok_pow_le hval
  have hne : (10 : Int) ^ cfg.decimals ≠ 0 := by
    have := one_le_pow10 cfg.decimals
    omega
  have hsp : set_price_model cfg oracle_lastprice ledger_secs st asset "USD" yield_rate
      timestamp = Except.ok (store (store st (yield_record_key timestamp asset) yield_rate)
        (encode_record_key timestamp asset) yield_rate) := by
    rw [set_price_of_validate_ok hval,
      after_validation_of_fx_ok (gfx_usd_ok oracle_lastprice timestamp hpow),
      compose_and_store_of_ok (gpwy_ok yield_rate ((10 : Int) ^ cfg.decimals)
        cfg.decimals hok hpow), Int.mul_tdiv_cancel_left yield_rate hne]
  unfold stored_price
  rw [hsp]
  exact store_temp_same _ _ _

def cfgC7 : ConfigState :=
  { decimals := 2, resolution := 300000, base_asset := Asset.Other "USD",
    fx_oracle_address := some 7, max_yield_deviation := 10, last_timestamp := 0 }

def emptyStorage : Storage := ⟨fun _ => none⟩

/-- C7 witness: a cold-start USD update at yield rate 1.50 stores exactly
150. -/
theorem usd_roundtrip_witness :
    stored_price cfgC7 none 1 emptyStorage 3 "USD" 150 600000 = some 150 :=
  usd_roundtrip cfgC7 none 1 emptyStorage 3 150 600000 rfl (by decide)

/-- C8: a `set_price` invocation that fails with any error commits no partial
state — under the transactional host semantics, every storage entry observed
after the failed call is unchanged, including the yield record written before
the FX resolution. -/
theorem set_price_atomicity (cfg : ConfigState) (oracle_lastprice : Option PriceData)
    (ledger_secs : Nat) (st : Storage) (asset : Nat) (fx : String) (yield_rate : Int)
    (timestamp : Nat) (e : Error)
    (hfail : set_price_model cfg oracle_lastprice ledger_secs st asset fx yield_rate timestamp
      = Except.error e) :
    ∀ key, (commit_transaction
        (set_price_model cfg oracle_lastprice ledger_secs st asset fx yield_rate timestamp)
        st).temp key = st.temp key := by
  intro key
  rw [hfail]
  rfl

/-- C8 witness: a call failing yield validation (rate 0 below the minimum)
leaves the store unchanged. -/
theorem set_price_atomicity_witness :
    (commit_transaction (set_price_model cfgC7 none 1 emptyStorage 0 "EUR" 0 600000)
      emptyStorage).temp 5 = emptyStorage.temp 5 :=
  set_price_atomicity cfgC7 none 1 emptyStorage 0 "EUR" 0 600000 Error.InvalidYieldRate rfl 5

/-! ## C9: queries on missing data -/

theorem collect_periods_error_iff (prices : List (Option Int)) :
    collect_periods prices = Except.error () ↔ none ∈ prices := by
  induction prices with
  | nil =>
    refine iff_of_false ?_ (by simp)
    intro hc
    exact Except.noConfusion (show Except.ok ([] : List Int) = Except.error () from hc)
  | cons hd tl ih =>
    cases hd with
    | none =>
      refine iff_of_true rfl (by simp)
    | some x =>
      rw [show (none ∈ some x :: tl) = (none = some x ∨ none ∈ tl) from by
        simp [List.mem_cons]]
      cases h : collect_periods tl with
      | error e =>
        cases e
        refine iff_of_true ?_ (Or.inr (ih.mp h))
        unfold collect_periods
        rw [h]
      | ok r =>
        refine iff_of_false ?_ ?_
        · unfold collect_periods
          rw [h]
          exact fun hc => Except.noConfusion hc
        · rintro (hc | hc)
          · exact Option.noConfusion hc
          · rw [ih.mpr hc] at h
            exact Except.noConfusion h

/-- C9 counterexample: a TWAP request over two periods where the second record
is missing aborts with an error instead of reporting absence, refuting the
claim that no query operation fails with an error on missing data. -/
theorem twap_gap_claim_cex :
    none ∈ [some (2 : Int), none] ∧ twap [some 2, none] = Except.error () := by
  constructor
  · simp
  · rfl

theorem twap_error_iff (prices : List (Option Int)) :
    twap prices = Except.error () ↔ none ∈ prices := by
  rw [← collect_periods_error_iff]
  unfold twap
  cases h : collect_periods prices with
  | error e =>
    cases e
    exact iff_of_true rfl rfl
  | ok vals =>
    exact iff_of_false (fun hc => Except.noConfusion hc) (fun hc => Except.noConfusion hc)

theorem x_price_missing_leg (temp : Nat → Option Int)
    (asset_a asset_b timestamp decimals : Nat)
    (h : get_price_model temp asset_a timestamp = none
      ∨ get_price_model temp asset_b timestamp = none) :
    x_price_model temp asset_a asset_b timestamp decimals = Except.ok none := by
  unfold x_price_model
  rcases h with h | h
  · rw [h]
  · cases hA : get_price_model temp asset_a timestamp with
    | none => rfl
    | some price_a => rw [h]

/-- C9 (amended): spot price, last price, cross rate and cross last price
report missing data as absence (`none`) and never fail with an error — the
cross queries short-circuit a missing leg before the fallible fixed-point
primitive — while TWAP (and hence cross TWAP, which averages the same period
records) aborts with an error precisely when one of the requested periods has
no record. -/
theorem query_missing_data_behavior :
    (∀ (temp : Nat → Option Int) (asset timestamp : Nat),
        get_price_model temp asset timestamp = temp (encode_record_key timestamp asset))
    ∧ (∀ (cfg : ConfigState) (temp : Nat → Option Int) (asset ledger_secs : Nat),
        (∀ ts, temp (encode_record_key ts asset) = none) →
        last_price_model cfg temp asset ledger_secs = none)
    ∧ (∀ (temp : Nat → Option Int) (asset_a asset_b timestamp decimals : Nat),
        get_price_model temp asset_a timestamp = none
          ∨ get_price_model temp asset_b timestamp = none →
        x_price_model temp asset_a asset_b timestamp decimals = Except.ok none)
    ∧ (∀ (cfg : ConfigState) (temp : Nat → Option Int) (asset_a asset_b ledger_secs : Nat),
        (∀ ts, temp (encode_record_key ts asset_a) = none) →
        x_last_price_model cfg temp asset_a asset_b ledger_secs = Except.ok none)
    ∧ ∀ prices : List (Option Int), twap prices = Except.error () ↔ none ∈ prices := by
  refine ⟨fun temp asset timestamp => rfl, ?_, x_price_missing_leg, ?_, twap_error_iff⟩
  · intro cfg temp asset ledger_secs h
    unfold last_price_model
    split
    · exact h _
    · rfl
  · intro cfg temp asset_a asset_b ledger_secs h
    unfold x_last_price_model
    split
    · exact x_price_missing_leg temp asset_a asset_b _ cfg.decimals (Or.inl (h _))
    · rfl

/-- C9 witness: with an empty record store, the cross rate reports absence
without an error, and a two-period TWAP with a gap aborts. -/
theorem query_missing_data_behavior_witness :
    x_price_model (fun _ => none) 0 1 600000 14 = Except.ok none
      ∧ twap [some 2, none] = Except.error () :=
  ⟨query_missing_data_behavior.2.2.1 (fun _ => none) 0 1 600000 14 (Or.inl rfl),
    (query_missing_data_behavior.2.2.2.2 [some 2, none]).mpr (by decide)⟩

/-! ## C10: the FX resolver's base-currency decision -/

/-- C10: the FX Price Resolver returns `10^decimals` without consulting the
oracle exactly for the literal symbol "USD": its result never depends on the
configured `base_asset`; for "USD" it is independent of the oracle address and
oracle data and equals `10^decimals`; for any other symbol the resolver goes
to the oracle — failing with `FxOracleUnavailable` when no oracle address is
configured, and consulting the oracle's answer (e.g. `StaleFxPrice` on no
record) when one is. -/
theorem fx_resolver_usd_literal (cfg : ConfigState) (oracle_lastprice : Option PriceData)
    (fx : String) (target : Nat) :
    (∀ base2 : Asset, get_reflector_fx_price { cfg with base_asset := base2 }
        oracle_lastprice fx target = get_reflector_fx_price cfg oracle_lastprice fx target)
    ∧ (fx = "USD" → ∀ (oracle2 : Option PriceData) (addr2 : Option Nat),
        get_reflector_fx_price { cfg with fx_oracle_address := addr2 } oracle2 fx target
          = get_reflector_fx_price cfg oracle_lastprice fx target)
    ∧ (fx = "USD" → (10 : Int) ^ cfg.decimals ≤ i128Max →
        get_reflector_fx_price cfg oracle_lastprice fx target
          = Except.ok ((10 : Int) ^ cfg.decimals))
    ∧ (fx ≠ "USD" → cfg.fx_oracle_address = none →
        get_reflector_fx_price cfg oracle_lastprice fx target
          = Except.error Error.FxOracleUnavailable)
    ∧ (fx ≠ "USD" → ∀ addr : Nat, cfg.fx_oracle_address = some addr →
        get_reflector_fx_price cfg none fx target = Except.error Error.StaleFxPrice) := by
  refine ⟨fun base2 => rfl, ?_, ?_, ?_, ?_⟩
  · intro hfx oracle2 addr2
    subst hfx
    rfl
  · intro hfx hpow
    subst hfx
    exact gfx_usd_ok oracle_lastprice target hpow
  · intro hfx haddr
    exact gfx_no_addr oracle_lastprice target hfx haddr
  · intro hfx addr haddr
    rw [gfx_not_usd none target hfx haddr]
    rfl

def cfgC10 : ConfigState :=
  { decimals := 14, resolution := 300000, base_asset := Asset.Other "MXN",
    fx_oracle_address := none, max_yield_deviation := 10, last_timestamp := 0 }

/-- C10 witness: even with the configured base asset being "MXN" and no
oracle address at all, the symbol "USD" resolves to `10^14` with no external
call, while "MXN" itself fails with `FxOracleUnavailable`. -/
theorem fx_resolver_usd_literal_witness :
    get_reflector_fx_price cfgC10 none "USD" 0 = Except.ok ((10 : Int) ^ cfgC10.decimals)
      ∧ get_reflector_fx_price cfgC10 none "MXN" 0 = Except.error Error.FxOracleUnavailable :=
  ⟨(fx_resolver_usd_literal cfgC10 none "USD" 0).2.2.1 rfl (by decide),
    (fx_resolver_usd_literal cfgC10 none "MXN" 0).2.2.2.1 (by decide) rfl⟩

end Reflector
